import Mathlib

/-!
Shallow embedding of `src/agents/tools/leonardo-tool.ts`: a client adapter
that submits an image-generation request to the Leonardo.ai asynchronous
job API and polls for completion.  Network effects are modelled by an
explicit environment (`Remote`): the response to the one submission call
and the response to each status query, indexed by attempt number.
Thrown JavaScript errors are modelled as `Except.error` carrying the
error message; the outermost `try/catch` of `execute` is the match that
converts them into the structured failure result.
-/

namespace Leonardo

/-- Constant `POLL_INTERVAL_MS` from the source: fixed sleep between status queries. -/
def POLL_INTERVAL_MS : Nat := 2000

/-- Constant `POLL_MAX_ATTEMPTS` from the source: hard cap on poll cycles. -/
def POLL_MAX_ATTEMPTS : Nat := 30

/-- Type `GeneratedImage` from the source: identifier plus URL. -/
structure GeneratedImage where
  id : String
  url : String
deriving Repr, DecidableEq

/-- One status-query response as observed by `pollForCompletion`.
`networkError` models a rejected `fetch` (or invalid JSON), `httpError`
models `!res.ok` (carrying `res.status`, the response body text and
`res.statusText`), `noGeneration` models a JSON body whose
`generations_by_pk` field is missing, and `generation` models a present
`generations_by_pk` with its optional `status` string and optional
`generated_images` list. -/
inductive PollResponse where
  | networkError (msg : String)
  | httpError (status : Nat) (bodyText statusText : String)
  | noGeneration
  | generation (status : Option String) (images : Option (List GeneratedImage))
deriving Repr, DecidableEq

/-- The submission response as observed by `execute`. `body gid` models a
successful HTTP response whose `sdGenerationJob?.generationId` is `gid`
(`none` when the field is absent). -/
inductive SubmitResponse where
  | networkError (msg : String)
  | httpError (status : Nat) (bodyText statusText : String)
  | body (generationId : Option String)
deriving Repr, DecidableEq

/-- Modelled from the spec: `readResponseText` (defined in `web-shared`,
which is not part of this repository's sources) reads the response body
and truncates it to at most `maxBytes` (the source calls it with
`maxBytes: 4 000`), yielding "up to a bounded-length excerpt of the
response body".  (Truncation acts on the character list; by
`String.take_eq` this is exactly `String.take`.) -/
def readResponseText (body : String) (maxBytes : Nat) : String :=
  ⟨body.data.take maxBytes⟩

/-- JavaScript `a || b` on strings: the empty string is falsy. -/
def strOr (a b : String) : String :=
  if a.isEmpty then b else a

/-- The message of the error thrown on `!res.ok` during a status query:
`Leonardo poll error (${res.status}): ${detail.text || res.statusText}`. -/
def pollErrorMsg (status : Nat) (bodyText statusText : String) : String :=
  s!"Leonardo poll error ({status}): {strOr (readResponseText bodyText 4000) statusText}"

/-- The message of the error thrown on `!res.ok` during submission:
`Leonardo generation request failed (${res.status}): ${detail.text || res.statusText}`. -/
def submitErrorMsg (status : Nat) (bodyText statusText : String) : String :=
  s!"Leonardo generation request failed ({status}): {strOr (readResponseText bodyText 4000) statusText}"

/-- The URL collection on status COMPLETE:
`(generation.generated_images ?? []).map((img) => img.url).filter(Boolean)`.
`filter(Boolean)` drops exactly the empty strings. -/
def filteredUrls (images : Option (List GeneratedImage)) : List String :=
  ((images.getD []).map (fun img => img.url)).filter (fun u => !u.isEmpty)

/-- One iteration of the poll loop body, after the sleep and the fetch:
`some (Except.error m)` models a thrown error with message `m`,
`some (Except.ok urls)` models `return urls`, and `none` models falling
through to the next iteration (any status other than FAILED/COMPLETE). -/
def processResponse (r : PollResponse) : Option (Except String (List String)) :=
  match r with
  | .networkError msg => some (.error msg)
  | .httpError status bodyText statusText =>
      some (.error (pollErrorMsg status bodyText statusText))
  | .noGeneration => some (.error "Leonardo: unexpected poll response shape")
  | .generation status images =>
      if status = some "FAILED" then
        some (.error "Leonardo generation failed")
      else if status = some "COMPLETE" then
        if (filteredUrls images).length = 0 then
          some (.error "Leonardo generation complete but no image URLs returned")
        else
          some (.ok (filteredUrls images))
      else
        none

/-- Observable events of the poll loop: the fixed-duration sleep and the
status query of attempt `i` (0-based). -/
inductive Event where
  | sleep (ms : Nat)
  | query (attempt : Nat)
deriving Repr, DecidableEq

/-- The events of one poll cycle at attempt `i`: sleep, then one query. -/
def cycleEvents (i : Nat) : List Event :=
  [Event.sleep POLL_INTERVAL_MS, Event.query i]

/-- The trace of `len` consecutive full poll cycles starting at attempt
`start`. -/
def blockTrace (start : Nat) : Nat → List Event
  | 0 => []
  | len + 1 => cycleEvents start ++ blockTrace (start + 1) len

/-- Number of status queries recorded in a trace. -/
def countQueries (events : List Event) : Nat :=
  (events.filter (fun e => match e with | .query _ => true | _ => false)).length

/-- The `for` loop of `pollForCompletion`: `fuel` iterations remain,
`attempt` is the current loop index.  Returns the early exit (thrown
error or returned URLs), or `none` when the loop runs to completion,
together with the trace of events performed. -/
def pollAux (responses : Nat → PollResponse) :
    Nat → Nat → Option (Except String (List String)) × List Event
  | 0, _ => (none, [])
  | fuel + 1, attempt =>
      match processResponse (responses attempt) with
      | some r => (some r, cycleEvents attempt)
      | none =>
          let rest := pollAux responses fuel (attempt + 1)
          (rest.1, cycleEvents attempt ++ rest.2)

/-- The budget `maxAttempts` as computed once before the loop:
`Math.min(POLL_MAX_ATTEMPTS, Math.floor((timeoutSeconds * 1_000) / POLL_INTERVAL_MS))`. -/
def maxAttemptsFor (timeoutSeconds : Nat) : Nat :=
  min POLL_MAX_ATTEMPTS (timeoutSeconds * 1000 / POLL_INTERVAL_MS)

/-- The message of the timeout error thrown after the loop:
`Leonardo generation timed out after ${maxAttempts * (POLL_INTERVAL_MS / 1000)} seconds`. -/
def timeoutMsg (maxAttempts : Nat) : String :=
  s!"Leonardo generation timed out after {maxAttempts * (POLL_INTERVAL_MS / 1000)} seconds"

/-- Function `pollForCompletion(generationId, apiKey, timeoutSeconds)`.  The remote
service's behaviour is the `responses` function; `generationId` and
`apiKey` only shape the request URL/headers and do not influence control
flow.  Returns the result (thrown error as `Except.error`) with the
event trace. -/
def pollForCompletion (responses : Nat → PollResponse)
    (generationId apiKey : String) (timeoutSeconds : Nat) :
    Except String (List String) × List Event :=
  match pollAux responses (maxAttemptsFor timeoutSeconds) 0 with
  | (some r, events) => (r, events)
  | (none, events) => (.error (timeoutMsg (maxAttemptsFor timeoutSeconds)), events)

/-- Declared numeric constraints of one schema field (what typebox will
enforce; description strings are not machine-checked). -/
structure NumericBounds where
  minimum : Option Nat
  maximum : Option Nat
  multipleOf : Option Nat
deriving Repr, DecidableEq

/-- The machine-checked numeric constraints of `LeonardoGenerateImageSchema`:
`num_images` declares `minimum: 1, maximum: 4`; `width` and `height`
declare no constraints at all (the "divisible by 8, max 1536" text lives
only in their human-readable descriptions). -/
structure LeonardoSchemaBounds where
  num_images : NumericBounds
  width : NumericBounds
  height : NumericBounds
deriving Repr, DecidableEq

/-- The schema `LeonardoGenerateImageSchema`, restricted to its declared
numeric constraints. -/
def LeonardoGenerateImageSchema : LeonardoSchemaBounds :=
  { num_images := ⟨some 1, some 4, none⟩
    width := ⟨none, none, none⟩
    height := ⟨none, none, none⟩ }

/-- The arguments `execute` receives (`args as Record<string, unknown>`);
`none` models an absent field. -/
structure ToolArgs where
  prompt : Option String
  num_images : Option Nat
  width : Option Nat
  height : Option Nat
  preset_style : Option String
deriving Repr, DecidableEq

/-- Modelled from the spec: `readStringParam(params, "prompt", { required: true })`
(defined in `common`, which is not part of this repository's sources)
returns the string value of the parameter and, per the spec's
"prompt (non-empty text)" / "prompt (required)", fails when the
parameter is absent or empty. -/
def readStringParam (value : Option String) : Except String String :=
  match value with
  | some s => if s.isEmpty then .error "Missing required parameter: prompt" else .ok s
  | none => .error "Missing required parameter: prompt"

/-- The JSON body of the submission call, exactly the object literal
`{ prompt, num_images: numImages, width, height, presetStyle }`. -/
structure RequestBody where
  prompt : String
  num_images : Nat
  width : Nat
  height : Nat
  presetStyle : String
deriving Repr, DecidableEq

/-- The defaulting performed by `execute` before submission:
`num_images ?? 1`, `width ?? 1024`, `height ?? 1024`,
`preset_style ?? "FASHION"`. -/
def builtBody (prompt : String) (args : ToolArgs) : RequestBody :=
  { prompt := prompt
    num_images := args.num_images.getD 1
    width := args.width.getD 1024
    height := args.height.getD 1024
    presetStyle := args.preset_style.getD "FASHION" }

/-- The remote service as seen by one `execute` invocation: the response
to the submission (a function of the submitted body) and the response to
the status query of each attempt. -/
structure Remote where
  submit : RequestBody → SubmitResponse
  poll : Nat → PollResponse

/-- The structured result returned by `execute` through `jsonResult`:
either `{ generationId, imageUrls, count }` or `{ error, imageUrls }`
(the catch branch always supplies `imageUrls: []`, which the embedding
records explicitly rather than baking in). -/
inductive ExecResult where
  | success (generationId : String) (imageUrls : List String) (count : Nat)
  | failure (error : String) (imageUrls : List String)
deriving Repr, DecidableEq

/-- What one `execute` invocation did: its returned result, the body of
the submission call when one was issued, and the poll-loop event trace. -/
structure ExecOutcome where
  result : ExecResult
  submitted : Option RequestBody
  pollEvents : List Event
deriving Repr, DecidableEq

/-- Operation `execute(_toolCallId, args)` from `createLeonardoTool`: parameter
reading and defaulting, the submission call, extraction of
`sdGenerationJob?.generationId` (with the falsy check `!generationId`),
the call `pollForCompletion(generationId, apiKey, 60)`, and the
outermost try/catch normalizing every thrown error into
`{ error, imageUrls: [] }`. -/
def execute (remote : Remote) (apiKey : String) (args : ToolArgs) : ExecOutcome :=
  match readStringParam args.prompt with
  | .error e => { result := .failure e [], submitted := none, pollEvents := [] }
  | .ok prompt =>
      let body := builtBody prompt args
      match remote.submit body with
      | .networkError msg =>
          { result := .failure msg [], submitted := some body, pollEvents := [] }
      | .httpError status bodyText statusText =>
          { result := .failure (submitErrorMsg status bodyText statusText) []
            submitted := some body
            pollEvents := [] }
      | .body gidOpt =>
          let generationId := gidOpt.getD ""
          if generationId.isEmpty then
            { result := .failure "Leonardo: no generationId in response" []
              submitted := some body
              pollEvents := [] }
          else
            match pollForCompletion remote.poll generationId apiKey 60 with
            | (.ok urls, events) =>
                { result := .success generationId urls urls.length
                  submitted := some body
                  pollEvents := events }
            | (.error e, events) =>
                { result := .failure e []
                  submitted := some body
                  pollEvents := events }

/-- A status-query response on which the loop keeps polling: a
well-shaped body whose `status` is anything other than `"FAILED"` and
`"COMPLETE"` (the source treats all such values, including a missing
status, like PENDING). -/
def PendingLike (r : PollResponse) : Prop :=
  ∃ status images, r = .generation status images ∧
    status ≠ some "FAILED" ∧ status ≠ some "COMPLETE"

/-- All status queries report a pending-like status forever. -/
def allPendingResponses : Nat → PollResponse :=
  fun _ => .generation (some "PENDING") none

/-- A remote whose submission response lacks the job identifier. -/
def trivialRemote : Remote :=
  { submit := fun _ => .body none, poll := allPendingResponses }

/-- A remote that yields a job identifier and then stays pending forever. -/
def remoteAllPending : Remote :=
  { submit := fun _ => .body (some "gid"), poll := allPendingResponses }

/-- A remote that yields a job identifier and completes on the first query. -/
def remoteQuickComplete : Remote :=
  { submit := fun _ => .body (some "gid")
    poll := fun _ => .generation (some "COMPLETE") (some [⟨"1", "a"⟩]) }

/-- Arguments with only the required prompt supplied. -/
def argsSimple : ToolArgs :=
  { prompt := some "p", num_images := none, width := none, height := none,
    preset_style := none }

/-! ### Helper lemmas about the poll loop -/

theorem toString_str (s : String) : toString s = s := rfl

theorem processResponse_of_pendingLike {r : PollResponse} (h : PendingLike r) :
    processResponse r = none := by
  obtain ⟨status, images, rfl, hf, hc⟩ := h
  simp [processResponse, hf, hc]

theorem processResponse_ok_eq {r : PollResponse} {urls : List String}
    (h : processResponse r = some (.ok urls)) :
    ∃ status images, r = .generation status images ∧ urls = filteredUrls images ∧
      (filteredUrls images).length ≠ 0 := by
  cases r with
  | networkError msg => exact absurd h (by simp [processResponse])
  | httpError status bodyText statusText => exact absurd h (by simp [processResponse])
  | noGeneration => exact absurd h (by simp [processResponse])
  | generation status images =>
      refine ⟨status, images, rfl, ?_⟩
      simp only [processResponse] at h
      by_cases hf : status = some "FAILED"
      · rw [if_pos hf] at h; exact absurd h (by simp)
      · rw [if_neg hf] at h
        by_cases hc : status = some "COMPLETE"
        · rw [if_pos hc] at h
          by_cases hlen : (filteredUrls images).length = 0
          · rw [if_pos hlen] at h; exact absurd h (by simp)
          · rw [if_neg hlen] at h
            exact ⟨(Except.ok.inj (Option.some.inj h)).symm, hlen⟩
        · rw [if_neg hc] at h; exact absurd h (by simp)

theorem processResponse_ok_nonempty {r : PollResponse} {urls : List String}
    (h : processResponse r = some (.ok urls)) : urls ≠ [] := by
  obtain ⟨status, images, -, hurls, hlen⟩ := processResponse_ok_eq h
  intro hnil
  exact hlen (by rw [← hurls, hnil]; rfl)

theorem countQueries_append (a b : List Event) :
    countQueries (a ++ b) = countQueries a + countQueries b := by
  simp [countQueries, List.filter_append]

theorem countQueries_cycle (i : Nat) : countQueries (cycleEvents i) = 1 := rfl

theorem countQueries_blockTrace (start len : Nat) :
    countQueries (blockTrace start len) = len := by
  induction len generalizing start with
  | zero => rfl
  | succ n ih =>
      simp only [blockTrace, countQueries_append, countQueries_cycle, ih]
      omega

theorem pollAux_all_none (responses : Nat → PollResponse) :
    ∀ fuel attempt,
      (∀ j, j < fuel → processResponse (responses (attempt + j)) = none) →
      pollAux responses fuel attempt = (none, blockTrace attempt fuel)
  | 0, attempt, _ => rfl
  | fuel + 1, attempt, h => by
      have h0 : processResponse (responses attempt) = none := by
        have := h 0 (by omega)
        simpa using this
      have ih := pollAux_all_none responses fuel (attempt + 1) (fun j hj => by
        have e : attempt + 1 + j = attempt + (j + 1) := by omega
        rw [e]
        exact h (j + 1) (by omega))
      simp [pollAux, h0, ih, blockTrace]

theorem pollAux_terminal (responses : Nat → PollResponse) :
    ∀ i fuel attempt r, i < fuel →
      (∀ j, j < i → processResponse (responses (attempt + j)) = none) →
      processResponse (responses (attempt + i)) = some r →
      pollAux responses fuel attempt = (some r, blockTrace attempt (i + 1))
  | 0, fuel, attempt, r, hi, _, hr => by
      cases fuel with
      | zero => omega
      | succ f =>
          have h0 : processResponse (responses attempt) = some r := by simpa using hr
          simp [pollAux, h0, blockTrace]
  | i + 1, fuel, attempt, r, hi, hbefore, hr => by
      cases fuel with
      | zero => omega
      | succ f =>
          have h0 : processResponse (responses attempt) = none := by
            have := hbefore 0 (by omega)
            simpa using this
          have ih := pollAux_terminal responses i f (attempt + 1) r (by omega)
            (fun j hj => by
              have e : attempt + 1 + j = attempt + (j + 1) := by omega
              rw [e]
              exact hbefore (j + 1) (by omega))
            (by
              have e : attempt + 1 + i = attempt + (i + 1) := by omega
              rw [e]
              exact hr)
          simp [pollAux, h0, ih, blockTrace]

theorem pollAux_shape (responses : Nat → PollResponse) :
    ∀ fuel attempt, ∃ k, k ≤ fuel ∧ (0 < fuel → 0 < k) ∧
      (pollAux responses fuel attempt).2 = blockTrace attempt k
  | 0, _ => ⟨0, by omega, by omega, rfl⟩
  | fuel + 1, attempt => by
      cases hr : processResponse (responses attempt) with
      | some r =>
          refine ⟨1, by omega, by omega, ?_⟩
          simp [pollAux, hr, blockTrace]
      | none =>
          obtain ⟨k, hk, -, htr⟩ := pollAux_shape responses fuel (attempt + 1)
          refine ⟨k + 1, by omega, by omega, ?_⟩
          simp [pollAux, hr, htr, blockTrace]

theorem pollAux_ok_nonempty (responses : Nat → PollResponse) :
    ∀ fuel attempt urls, (pollAux responses fuel attempt).1 = some (.ok urls) →
      urls ≠ []
  | 0, _, _, h => by simp [pollAux] at h
  | fuel + 1, attempt, urls, h => by
      cases hr : processResponse (responses attempt) with
      | some r =>
          simp [pollAux, hr] at h
          exact processResponse_ok_nonempty (h ▸ hr)
      | none =>
          simp [pollAux, hr] at h
          exact pollAux_ok_nonempty responses fuel (attempt + 1) urls h

theorem pollForCompletion_ok_nonempty (responses : Nat → PollResponse)
    (gid key : String) (t : Nat) (urls : List String)
    (h : (pollForCompletion responses gid key t).1 = .ok urls) : urls ≠ [] := by
  unfold pollForCompletion at h
  cases hp : pollAux responses (maxAttemptsFor t) 0 with
  | mk fst snd =>
      cases fst with
      | some r =>
          rw [hp] at h
          simp at h
          exact pollAux_ok_nonempty responses (maxAttemptsFor t) 0 urls
            (by rw [hp, h])
      | none =>
          rw [hp] at h
          simp at h

/-! ### Claim theorems -/

/-- C1: The poller computes its attempt budget once, before the loop, as
`min(30, floor(timeoutSeconds * 1000 / 2000))`; if every status query
reports PENDING (or any status other than COMPLETE and FAILED, treated
the same) until the budget is exhausted, the workflow performs exactly
that many status queries and then fails with a timeout error stating the
elapsed seconds. -/
theorem spec_c1_poll_timeout_budget (responses : Nat → PollResponse)
    (gid key : String) (t : Nat)
    (hp : ∀ i, i < maxAttemptsFor t → PendingLike (responses i)) :
    maxAttemptsFor t = min 30 (t * 1000 / 2000) ∧
    pollForCompletion responses gid key t =
      (.error (timeoutMsg (maxAttemptsFor t)), blockTrace 0 (maxAttemptsFor t)) ∧
    countQueries (pollForCompletion responses gid key t).2 = maxAttemptsFor t ∧
    timeoutMsg (maxAttemptsFor t) =
      "Leonardo generation timed out after " ++
        toString (maxAttemptsFor t * 2) ++ " seconds" := by
  have hall : ∀ j, j < maxAttemptsFor t → processResponse (responses (0 + j)) = none := by
    intro j hj
    rw [Nat.zero_add]
    exact processResponse_of_pendingLike (hp j hj)
  have haux := pollAux_all_none responses (maxAttemptsFor t) 0 hall
  refine ⟨?_, ?_, ?_, ?_⟩
  · simp [maxAttemptsFor, POLL_MAX_ATTEMPTS, POLL_INTERVAL_MS]
  · unfold pollForCompletion
    rw [haux]
  · unfold pollForCompletion
    rw [haux]
    simp [countQueries_blockTrace]
  · simp [timeoutMsg, POLL_INTERVAL_MS, toString_str, String.append_assoc]

/-- Witness for C1: with a 10-second budget and every query PENDING, the
poll performs exactly 5 queries and times out reporting 10 seconds. -/
theorem spec_c1_witness :
    pollForCompletion allPendingResponses "gid" "key" 10 =
      (.error "Leonardo generation timed out after 10 seconds", blockTrace 0 5) ∧
    countQueries (pollForCompletion allPendingResponses "gid" "key" 10).2 = 5 := by
  have h := spec_c1_poll_timeout_budget allPendingResponses "gid" "key" 10
    (fun i _ => ⟨some "PENDING", none, rfl, by decide, by decide⟩)
  refine ⟨?_, ?_⟩
  · rw [h.2.1]
    rfl
  · rw [h.2.2.1]
    rfl

/-- C3: If any status query reports FAILED, the workflow fails immediately
with a failure signal and issues no further status queries, regardless of
how many attempts remain in the budget. -/
theorem spec_c3_failed_aborts (responses : Nat → PollResponse) (gid key : String)
    (t i : Nat) (images : Option (List GeneratedImage))
    (hi : i < maxAttemptsFor t)
    (hbefore : ∀ j, j < i → PendingLike (responses j))
    (hfail : responses i = .generation (some "FAILED") images) :
    pollForCompletion responses gid key t =
      (.error "Leonardo generation failed", blockTrace 0 (i + 1)) ∧
    countQueries (pollForCompletion responses gid key t).2 = i + 1 := by
  have hterm := pollAux_terminal responses i (maxAttemptsFor t) 0
    (.error "Leonardo generation failed") hi
    (fun j hj => by
      rw [Nat.zero_add]
      exact processResponse_of_pendingLike (hbefore j hj))
    (by rw [Nat.zero_add, hfail]; simp [processResponse])
  constructor
  · unfold pollForCompletion
    rw [hterm]
  · unfold pollForCompletion
    rw [hterm]
    simp [countQueries_blockTrace]

/-- The remote reports PENDING on the first query and FAILED on the second. -/
def failAfterOne : Nat → PollResponse :=
  fun n =>
    if n = 0 then .generation (some "PENDING") none
    else .generation (some "FAILED") none

/-- Witness for C3: FAILED on the second query (budget 30) stops the poll
after exactly 2 queries with the failure error. -/
theorem spec_c3_witness :
    pollForCompletion failAfterOne "gid" "key" 60 =
      (.error "Leonardo generation failed", blockTrace 0 2) ∧
    countQueries (pollForCompletion failAfterOne "gid" "key" 60).2 = 2 :=
  spec_c3_failed_aborts failAfterOne "gid" "key" 60 1 none (by decide)
    (fun j hj => by
      have hj0 : j = 0 := by omega
      subst hj0
      exact ⟨some "PENDING", none, rfl, by decide, by decide⟩)
    rfl

/-- C4: When a status query reports COMPLETE, the returned URL sequence is
the image list's URLs with empty URLs removed and the original order
preserved. -/
theorem spec_c4_complete_filters (responses : Nat → PollResponse) (gid key : String)
    (t i : Nat) (imgs : List GeneratedImage)
    (hi : i < maxAttemptsFor t)
    (hbefore : ∀ j, j < i → PendingLike (responses j))
    (hcomp : responses i = .generation (some "COMPLETE") (some imgs))
    (hne : (filteredUrls (some imgs)).length ≠ 0) :
    (pollForCompletion responses gid key t).1 =
      .ok ((imgs.map (fun img => img.url)).filter (fun u => !u.isEmpty)) ∧
    countQueries (pollForCompletion responses gid key t).2 = i + 1 := by
  have hterm := pollAux_terminal responses i (maxAttemptsFor t) 0
    (.ok (filteredUrls (some imgs))) hi
    (fun j hj => by
      rw [Nat.zero_add]
      exact processResponse_of_pendingLike (hbefore j hj))
    (by rw [Nat.zero_add, hcomp]; simp [processResponse, hne])
  constructor
  · unfold pollForCompletion
    rw [hterm]
    rfl
  · unfold pollForCompletion
    rw [hterm]
    simp [countQueries_blockTrace]

/-- The remote reports COMPLETE at once with urls `"a"`, `""`, `"b"`. -/
def completeABResponses : Nat → PollResponse :=
  fun _ => .generation (some "COMPLETE") (some [⟨"1", "a"⟩, ⟨"2", ""⟩, ⟨"3", "b"⟩])

/-- Witness for C4: images `[{url:"a"}, {url:""}, {url:"b"}]` yield exactly
`["a", "b"]`. -/
theorem spec_c4_witness :
    (pollForCompletion completeABResponses "gid" "key" 60).1 = .ok ["a", "b"] := by
  have h := spec_c4_complete_filters completeABResponses "gid" "key" 60 0
    [⟨"1", "a"⟩, ⟨"2", ""⟩, ⟨"3", "b"⟩] (by decide)
    (fun j hj => absurd hj (by omega)) rfl (by decide)
  rw [h.1]
  rfl

/-- C5: If a status query reports COMPLETE with zero images, a missing
image list, or only empty URLs, the workflow fails with the "no URLs"
error; and it never returns an empty URL list as a success. -/
theorem spec_c5_no_urls (responses : Nat → PollResponse) (gid key : String)
    (t i : Nat) (images : Option (List GeneratedImage))
    (hi : i < maxAttemptsFor t)
    (hbefore : ∀ j, j < i → PendingLike (responses j))
    (hcomp : responses i = .generation (some "COMPLETE") images)
    (hempty : filteredUrls images = []) :
    (pollForCompletion responses gid key t).1 =
      .error "Leonardo generation complete but no image URLs returned" ∧
    ∀ (rs : Nat → PollResponse) (g k : String) (s : Nat) (urls : List String),
      (pollForCompletion rs g k s).1 = .ok urls → urls ≠ [] := by
  have hterm := pollAux_terminal responses i (maxAttemptsFor t) 0
    (.error "Leonardo generation complete but no image URLs returned") hi
    (fun j hj => by
      rw [Nat.zero_add]
      exact processResponse_of_pendingLike (hbefore j hj))
    (by rw [Nat.zero_add, hcomp]; simp [processResponse, hempty])
  constructor
  · unfold pollForCompletion
    rw [hterm]
  · exact fun rs g k s urls h => pollForCompletion_ok_nonempty rs g k s urls h

/-- The remote reports COMPLETE at once but every URL is empty. -/
def completeEmptyResponses : Nat → PollResponse :=
  fun _ => .generation (some "COMPLETE") (some [⟨"1", ""⟩])

/-- Witness for C5: COMPLETE with only an empty URL fails with the
"no URLs" error. -/
theorem spec_c5_witness :
    (pollForCompletion completeEmptyResponses "gid" "key" 60).1 =
      .error "Leonardo generation complete but no image URLs returned" :=
  (spec_c5_no_urls completeEmptyResponses "gid" "key" 60 0 (some [⟨"1", ""⟩])
    (by decide) (fun j hj => absurd hj (by omega)) rfl (by decide)).1

/-! ### Helper lemmas about `execute` -/

theorem readResponseText_length_le (body : String) (maxBytes : Nat) :
    (readResponseText body maxBytes).length ≤ maxBytes := by
  show (body.data.take maxBytes).length ≤ maxBytes
  rw [List.length_take]
  omega

theorem pollForCompletion_snd (responses : Nat → PollResponse)
    (gid key : String) (t : Nat) :
    (pollForCompletion responses gid key t).2 =
      (pollAux responses (maxAttemptsFor t) 0).2 := by
  unfold pollForCompletion
  cases hp : pollAux responses (maxAttemptsFor t) 0 with
  | mk fst snd => cases fst <;> rfl

theorem execute_submitted (remote : Remote) (key : String) (args : ToolArgs)
    (p : String) (hprompt : readStringParam args.prompt = .ok p) :
    (execute remote key args).submitted = some (builtBody p args) := by
  cases hs : remote.submit (builtBody p args) with
  | networkError msg => simp [execute, hprompt, hs]
  | httpError status bodyText statusText => simp [execute, hprompt, hs]
  | body gidOpt =>
      cases hg : (gidOpt.getD "").isEmpty with
      | true => simp [execute, hprompt, hs, hg]
      | false =>
          cases hpoll : pollForCompletion remote.poll (gidOpt.getD "") key 60 with
          | mk res events => cases res <;> simp [execute, hprompt, hs, hg, hpoll]

theorem execute_pollEvents_poll (remote : Remote) (key : String) (args : ToolArgs)
    (p : String) (gidOpt : Option String)
    (hprompt : readStringParam args.prompt = .ok p)
    (hs : remote.submit (builtBody p args) = .body gidOpt)
    (hg : (gidOpt.getD "").isEmpty = false) :
    (execute remote key args).pollEvents =
      (pollForCompletion remote.poll (gidOpt.getD "") key 60).2 := by
  cases hpoll : pollForCompletion remote.poll (gidOpt.getD "") key 60 with
  | mk res events => cases res <;> simp [execute, hprompt, hs, hg, hpoll]

/-- C2: For every input and every behavior of the remote service, `execute`
never raises past its boundary: it returns either
`{generationId, imageUrls, count}` with `count` the length of a non-empty
URL list, or `{error, imageUrls: []}`. -/
theorem spec_c2_execute_normalized (remote : Remote) (key : String) (args : ToolArgs) :
    (∃ e, (execute remote key args).result = .failure e []) ∨
    (∃ gid urls, (execute remote key args).result = .success gid urls urls.length ∧
      urls ≠ []) := by
  cases hp : readStringParam args.prompt with
  | error e =>
      refine .inl ⟨e, ?_⟩
      simp [execute, hp]
  | ok prompt =>
      cases hs : remote.submit (builtBody prompt args) with
      | networkError msg =>
          refine .inl ⟨msg, ?_⟩
          simp [execute, hp, hs]
      | httpError status bodyText statusText =>
          refine .inl ⟨submitErrorMsg status bodyText statusText, ?_⟩
          simp [execute, hp, hs]
      | body gidOpt =>
          cases hg : (gidOpt.getD "").isEmpty with
          | true =>
              refine .inl ⟨"Leonardo: no generationId in response", ?_⟩
              simp [execute, hp, hs, hg]
          | false =>
              cases hpoll : pollForCompletion remote.poll (gidOpt.getD "") key 60 with
              | mk res events =>
                  cases res with
                  | ok urls =>
                      refine .inr ⟨gidOpt.getD "", urls, ?_, ?_⟩
                      · simp [execute, hp, hs, hg, hpoll]
                      · exact pollForCompletion_ok_nonempty remote.poll
                          (gidOpt.getD "") key 60 urls (by rw [hpoll])
                  | error e =>
                      refine .inl ⟨e, ?_⟩
                      simp [execute, hp, hs, hg, hpoll]

/-- C6: A non-success submission HTTP status fails immediately with a
message carrying the status code and a bounded-length body excerpt, with
no status query issued; a submission response lacking the job identifier
likewise fails with the malformed-shape error before any status query. -/
theorem spec_c6_submit_failure (remote : Remote) (key : String) (args : ToolArgs)
    (p : String) (hprompt : readStringParam args.prompt = .ok p) :
    (∀ status bodyText statusText,
      remote.submit (builtBody p args) = .httpError status bodyText statusText →
      execute remote key args =
        { result := .failure (submitErrorMsg status bodyText statusText) []
          submitted := some (builtBody p args)
          pollEvents := [] } ∧
      (∃ pre post, submitErrorMsg status bodyText statusText =
        pre ++ toString status ++ post) ∧
      (readResponseText bodyText 4000).length ≤ 4000) ∧
    (remote.submit (builtBody p args) = .body none →
      execute remote key args =
        { result := .failure "Leonardo: no generationId in response" []
          submitted := some (builtBody p args)
          pollEvents := [] }) := by
  constructor
  · intro status bodyText statusText hs
    refine ⟨?_, ?_, readResponseText_length_le bodyText 4000⟩
    · simp [execute, hprompt, hs]
    · refine ⟨"Leonardo generation request failed (",
        "): " ++ strOr (readResponseText bodyText 4000) statusText, ?_⟩
      simp [submitErrorMsg, toString_str, String.append_assoc]
  · intro hs
    simp [execute, hprompt, hs, show ("" : String).isEmpty = true from rfl]

/-- A submission that fails with HTTP status 500. -/
def remote500 : Remote :=
  { submit := fun _ => .httpError 500 "boom" "Internal Server Error"
    poll := allPendingResponses }

/-- Witness for C6: a 500 submission response yields the structured error
(containing "500") with an empty poll trace, i.e. zero status queries. -/
theorem spec_c6_witness :
    execute remote500 "key" argsSimple =
      { result := .failure "Leonardo generation request failed (500): boom" []
        submitted := some (builtBody "p" argsSimple)
        pollEvents := [] } := by
  have h := (spec_c6_submit_failure remote500 "key" argsSimple "p" rfl).1
    500 "boom" "Internal Server Error" rfl
  rw [h.1]
  rfl

/-- C7: The submitted request body is exactly
`{prompt, num_images, width, height, presetStyle}`: explicitly supplied
values appear verbatim and omitted fields take the defaults
`num_images = 1`, `width = 1024`, `height = 1024`,
`presetStyle = "FASHION"`. -/
theorem spec_c7_request_body (remote : Remote) (key : String) (args : ToolArgs)
    (p : String) (hprompt : readStringParam args.prompt = .ok p) :
    (execute remote key args).submitted = some (builtBody p args) ∧
    builtBody p args =
      { prompt := p
        num_images := args.num_images.getD 1
        width := args.width.getD 1024
        height := args.height.getD 1024
        presetStyle := args.preset_style.getD "FASHION" } :=
  ⟨execute_submitted remote key args p hprompt, rfl⟩

/-- Arguments supplying every optional field explicitly. -/
def argsExplicit : ToolArgs :=
  { prompt := some "p", num_images := some 2, width := some 512,
    height := some 768, preset_style := some "CINEMATIC" }

/-- Witness for C7: explicit `num_images = 2, width = 512, height = 768,
preset_style = "CINEMATIC"` appear verbatim in the submitted body, and a
prompt-only request gets the documented defaults. -/
theorem spec_c7_witness :
    (execute trivialRemote "key" argsExplicit).submitted =
      some { prompt := "p", num_images := 2, width := 512, height := 768,
             presetStyle := "CINEMATIC" } ∧
    (execute trivialRemote "key" argsSimple).submitted =
      some { prompt := "p", num_images := 1, width := 1024, height := 1024,
             presetStyle := "FASHION" } := by
  constructor
  · rw [(spec_c7_request_body trivialRemote "key" argsExplicit "p" rfl).1]
    rfl
  · rw [(spec_c7_request_body trivialRemote "key" argsSimple "p" rfl).1]
    rfl

/-- Arguments whose width is not a multiple of 8 and whose height exceeds
the documented 1536 cap. -/
def argsOutOfBounds : ToolArgs :=
  { prompt := some "p", num_images := some 1, width := some 1001,
    height := some 2048, preset_style := none }

/-- C8 counterexample: a request with `width = 1001` (not a multiple of 8)
and `height = 2048` (above 1536) is submitted exactly as supplied — no
validation of the width/height bounds happens before the creation call,
and the schema declares no machine-checked constraint on either field. -/
theorem spec_c8_counterexample :
    (execute trivialRemote "key" argsOutOfBounds).submitted =
      some { prompt := "p", num_images := 1, width := 1001, height := 2048,
             presetStyle := "FASHION" } ∧
    1001 % 8 ≠ 0 ∧ 1536 < 2048 ∧
    LeonardoGenerateImageSchema.width = ⟨none, none, none⟩ ∧
    LeonardoGenerateImageSchema.height = ⟨none, none, none⟩ :=
  ⟨rfl, by decide, by decide, rfl, rfl⟩

/-- C8 (amended): only `num_images` carries declared schema bounds
(minimum 1, maximum 4); `width` and `height` declare no machine-checked
constraints — the divisible-by-8 and 1536 bounds appear only in
human-readable descriptions — and `execute` submits caller-supplied
width/height verbatim after defaulting. -/
theorem spec_c8_amended (remote : Remote) (key : String) (args : ToolArgs)
    (p : String) (w h' : Nat)
    (hprompt : readStringParam args.prompt = .ok p)
    (hw : args.width = some w) (hh : args.height = some h') :
    LeonardoGenerateImageSchema.num_images = ⟨some 1, some 4, none⟩ ∧
    LeonardoGenerateImageSchema.width = ⟨none, none, none⟩ ∧
    LeonardoGenerateImageSchema.height = ⟨none, none, none⟩ ∧
    (execute remote key args).submitted = some (builtBody p args) ∧
    (builtBody p args).width = w ∧ (builtBody p args).height = h' := by
  refine ⟨rfl, rfl, rfl, execute_submitted remote key args p hprompt, ?_, ?_⟩
  · simp [builtBody, hw]
  · simp [builtBody, hh]

/-- Witness for the amended C8: width 1001 and height 2048 are submitted
verbatim. -/
theorem spec_c8_witness :
    (execute remoteAllPending "key" argsOutOfBounds).submitted =
      some (builtBody "p" argsOutOfBounds) ∧
    (builtBody "p" argsOutOfBounds).width = 1001 ∧
    (builtBody "p" argsOutOfBounds).height = 2048 := by
  have h := spec_c8_amended remoteAllPending "key" argsOutOfBounds "p" 1001 2048
    rfl rfl rfl
  exact ⟨h.2.2.2.1, h.2.2.2.2.1, h.2.2.2.2.2⟩

/-- C9: whenever the submission yields a (non-empty) job identifier, the
poll loop runs at least one cycle before any result is returned, and the
event trace is exactly a sequence of sleep-2000ms-then-query cycles. -/
theorem spec_c9_polls_before_result (remote : Remote) (key : String)
    (args : ToolArgs) (p gid : String)
    (hprompt : readStringParam args.prompt = .ok p)
    (hsubmit : remote.submit (builtBody p args) = .body (some gid))
    (hgid : gid.isEmpty = false) :
    ∃ k, 1 ≤ k ∧ k ≤ POLL_MAX_ATTEMPTS ∧
      (execute remote key args).pollEvents = blockTrace 0 k ∧
      countQueries (execute remote key args).pollEvents = k := by
  obtain ⟨k, hk, hpos, htr⟩ := pollAux_shape remote.poll (maxAttemptsFor 60) 0
  have h30 : maxAttemptsFor 60 = POLL_MAX_ATTEMPTS := by decide
  have hk1 : 0 < k := hpos (by rw [h30]; decide)
  have he : (execute remote key args).pollEvents =
      (pollAux remote.poll (maxAttemptsFor 60) 0).2 := by
    rw [execute_pollEvents_poll remote key args p (some gid) hprompt hsubmit
      (by simpa using hgid)]
    exact pollForCompletion_snd remote.poll ((some gid).getD "") key 60
  refine ⟨k, hk1, by omega, ?_, ?_⟩
  · rw [he, htr]
  · rw [he, htr, countQueries_blockTrace]

/-- Witness for C9: with a submission that immediately yields an id and a
first-poll COMPLETE, at least one status query is issued. -/
theorem spec_c9_witness :
    1 ≤ countQueries (execute remoteQuickComplete "key" argsSimple).pollEvents := by
  obtain ⟨k, hk1, -, -, hcount⟩ := spec_c9_polls_before_result remoteQuickComplete
    "key" argsSimple "p" "gid" rfl rfl rfl
  rw [hcount]
  exact hk1

/-- C10: `execute` always calls the poller with the fixed 60-second
budget, so the attempt budget is `min(30, 60000/2000) = 30`: no run of
`execute` ever issues more than 30 status queries, and when the remote
stays pending forever a successful submission leads to exactly 30 status
queries. -/
theorem spec_c10_fixed_budget (remote : Remote) (key : String) (args : ToolArgs) :
    maxAttemptsFor 60 = 30 ∧
    countQueries (execute remote key args).pollEvents ≤ 30 ∧
    (∀ p gid, readStringParam args.prompt = .ok p →
      remote.submit (builtBody p args) = .body (some gid) →
      gid.isEmpty = false →
      (∀ i, i < 30 → PendingLike (remote.poll i)) →
      countQueries (execute remote key args).pollEvents = 30) := by
  refine ⟨by decide, ?_, ?_⟩
  · cases hp : readStringParam args.prompt with
    | error e =>
        have h : (execute remote key args).pollEvents = [] := by simp [execute, hp]
        rw [h]
        decide
    | ok prompt =>
        cases hs : remote.submit (builtBody prompt args) with
        | networkError msg =>
            have h : (execute remote key args).pollEvents = [] := by
              simp [execute, hp, hs]
            rw [h]
            decide
        | httpError status bodyText statusText =>
            have h : (execute remote key args).pollEvents = [] := by
              simp [execute, hp, hs]
            rw [h]
            decide
        | body gidOpt =>
            cases hg : (gidOpt.getD "").isEmpty with
            | true =>
                have h : (execute remote key args).pollEvents = [] := by
                  simp [execute, hp, hs, hg]
                rw [h]
                decide
            | false =>
                obtain ⟨k, hk, -, htr⟩ := pollAux_shape remote.poll (maxAttemptsFor 60) 0
                have h30 : maxAttemptsFor 60 = 30 := by decide
                rw [execute_pollEvents_poll remote key args prompt gidOpt hp hs hg,
                  pollForCompletion_snd, htr, countQueries_blockTrace]
                omega
  · intro p gid hp hs hg hpend
    have h30 : maxAttemptsFor 60 = 30 := by decide
    have hall : ∀ j, j < maxAttemptsFor 60 →
        processResponse (remote.poll (0 + j)) = none := by
      intro j hj
      rw [Nat.zero_add]
      exact processResponse_of_pendingLike (hpend j (by omega))
    have haux := pollAux_all_none remote.poll (maxAttemptsFor 60) 0 hall
    rw [execute_pollEvents_poll remote key args p (some gid) hp hs (by simpa using hg),
      pollForCompletion_snd, haux]
    show countQueries (blockTrace 0 (maxAttemptsFor 60)) = 30
    rw [countQueries_blockTrace, h30]

/-- Witness for C10: an always-pending remote with a successful submission
issues exactly 30 status queries. -/
theorem spec_c10_witness :
    countQueries (execute remoteAllPending "key" argsSimple).pollEvents = 30 :=
  (spec_c10_fixed_budget remoteAllPending "key" argsSimple).2.2 "p" "gid" rfl rfl rfl
    (fun i _ => ⟨some "PENDING", none, rfl, by decide, by decide⟩)

end Leonardo
